import Mathlib

/-!
Verification development for the nfsserve NFS v3 server engine.

The definitions below are shallow embeddings of the Rust sources:
  * `src/xdr.rs`    — the XDR codec (byte lists, big-endian integers, opaques)
  * `src/vfs.rs`    — opaque file-handle mint/parse and the back-end contract
  * `src/nfs_handlers.rs` — the NFS v3 procedure handlers (trace- and byte-level)
  * `src/rpcwire.rs`, `src/mount_handlers.rs`, `src/portmap_handlers.rs` — RPC dispatch

Machine integers are modelled as `Nat`/`Int` with explicit ranges; byte
strings as `List Nat` with entries below 256; fallible operations as
`Option`/`Except`.
-/

namespace NFSServe

/-- Wire bytes: a list of naturals, each below 256 by construction. -/
abbrev Bytes := List Nat

instance exceptDecEq {ε α : Type} [DecidableEq ε] [DecidableEq α] :
    DecidableEq (Except ε α) := fun a b =>
  match a, b with
  | Except.error e, Except.error f =>
      if h : e = f then isTrue (by rw [h])
      else isFalse (fun hc => h (Except.error.inj hc))
  | Except.ok x, Except.ok y =>
      if h : x = y then isTrue (by rw [h])
      else isFalse (fun hc => h (Except.ok.inj hc))
  | Except.error _, Except.ok _ => isFalse (fun hc => Except.noConfusion hc)
  | Except.ok _, Except.error _ => isFalse (fun hc => Except.noConfusion hc)

/-! ## XDR codec, from `src/xdr.rs`

`impl XDR for u32` writes the 4 big-endian bytes (`byteorder::BigEndian`);
`u64` writes 8; `bool` is a 4-byte 0/1 whose decoder accepts any nonzero
value as `true`; `i32`/`i64` write the two's-complement bit pattern;
`[u8; N]` is written verbatim; `Vec<u8>` is a 4-byte length, the payload,
and zero padding to a multiple of 4. -/

/-- Big-endian 4-byte encoding of a `u32` value (`impl XDR for u32`). -/
def encU32 (x : Nat) : Bytes :=
  [x / 16777216 % 256, x / 65536 % 256, x / 256 % 256, x % 256]

/-- Big-endian 8-byte encoding of a `u64` value (`impl XDR for u64`). -/
def encU64 (x : Nat) : Bytes :=
  [x / 72057594037927936 % 256, x / 281474976710656 % 256,
   x / 1099511627776 % 256, x / 4294967296 % 256,
   x / 16777216 % 256, x / 65536 % 256, x / 256 % 256, x % 256]

/-- Decode a big-endian `u32`, returning the value and the remaining input. -/
def decU32 : Bytes → Option (Nat × Bytes)
  | b0 :: b1 :: b2 :: b3 :: rest =>
      some (((b0 * 256 + b1) * 256 + b2) * 256 + b3, rest)
  | _ => none

/-- Decode a big-endian `u64`, returning the value and the remaining input. -/
def decU64 : Bytes → Option (Nat × Bytes)
  | b0 :: b1 :: b2 :: b3 :: b4 :: b5 :: b6 :: b7 :: rest =>
      some (b0 * 72057594037927936 + b1 * 281474976710656 + b2 * 1099511627776
        + b3 * 4294967296 + b4 * 16777216 + b5 * 65536 + b6 * 256 + b7, rest)
  | _ => none

/-- Boolean encoding: a 4-byte 0/1 (`impl XDR for bool`). -/
def encBool (b : Bool) : Bytes := encU32 (if b then 1 else 0)

/-- Boolean decoding: the source sets `*self = val > 0`. -/
def decBool (b : Bytes) : Option (Bool × Bytes) :=
  (decU32 b).map (fun p => (decide (0 < p.1), p.2))

/-- Signed 32-bit encoding: the two's-complement bit pattern, big-endian
(`impl XDR for i32` via `byteorder::write_i32`). -/
def encI32 (x : Int) : Bytes := encU32 (x % 4294967296).toNat

/-- Signed 32-bit decoding, reinterpreting the 4-byte pattern. -/
def decI32 (b : Bytes) : Option (Int × Bytes) :=
  (decU32 b).map (fun p =>
    (if p.1 < 2147483648 then (p.1 : Int) else (p.1 : Int) - 4294967296, p.2))

/-- Signed 64-bit encoding: the two's-complement bit pattern, big-endian. -/
def encI64 (x : Int) : Bytes := encU64 (x % 18446744073709551616).toNat

/-- Signed 64-bit decoding, reinterpreting the 8-byte pattern. -/
def decI64 (b : Bytes) : Option (Int × Bytes) :=
  (decU64 b).map (fun p =>
    (if p.1 < 9223372036854775808 then (p.1 : Int)
     else (p.1 : Int) - 18446744073709551616, p.2))

/-- Fixed-length opaque arrays are written verbatim (`impl XDR for [u8; N]`). -/
def encFixed (v : Bytes) : Bytes := v

/-- Read exactly `n` bytes from the input, failing on a short read. -/
def readN (n : Nat) (b : Bytes) : Option (Bytes × Bytes) :=
  if n ≤ b.length then some (b.take n, b.drop n) else none

/-- Fixed-length opaque decoding (`src.read_exact(self)`). -/
def decFixed (n : Nat) (b : Bytes) : Option (Bytes × Bytes) := readN n b

/-- Padding applied after a variable-length opaque: `(4 - length % 4) % 4`. -/
def xdrPad (n : Nat) : Nat := (4 - n % 4) % 4

/-- Variable-length opaque encoding (`impl XDR for Vec<u8>`): 4-byte length,
payload, zero padding.  The source asserts `len < u32::MAX`. -/
def encByteVec (v : Bytes) : Bytes :=
  encU32 v.length ++ v ++ List.replicate (xdrPad v.length) 0

/-- Variable-length opaque decoding: read the length, the payload, and the
padding (discarded). -/
def decByteVec (b : Bytes) : Option (Bytes × Bytes) := do
  let (len, r) ← decU32 b
  let (v, r) ← readN len r
  let (_, r) ← readN (xdrPad len) r
  pure (v, r)

/-! ## File handles, from `src/vfs.rs`

`id_to_fh` mints 16 bytes: 8-byte little-endian generation number followed
by the 8-byte little-endian fileid.  `fh_to_id` rejects a length other than
16 with `NFS3ERR_BADHANDLE`, a smaller generation with `NFS3ERR_STALE`, a
larger one with `NFS3ERR_BADHANDLE`. -/

/-- NFS v3 status values (`enum nfsstat3` in `src/nfs.rs`). -/
inductive Nfsstat3 where
  | NFS3_OK
  | NFS3ERR_PERM
  | NFS3ERR_NOENT
  | NFS3ERR_IOERROR
  | NFS3ERR_NXIO
  | NFS3ERR_ACCES
  | NFS3ERR_EXIST
  | NFS3ERR_XDEV
  | NFS3ERR_NODEV
  | NFS3ERR_NOTDIR
  | NFS3ERR_ISDIR
  | NFS3ERR_INVAL
  | NFS3ERR_FBIG
  | NFS3ERR_NOSPC
  | NFS3ERR_ROFS
  | NFS3ERR_MLINK
  | NFS3ERR_NAMETOOLONG
  | NFS3ERR_NOTEMPTY
  | NFS3ERR_DQUOT
  | NFS3ERR_STALE
  | NFS3ERR_REMOTE
  | NFS3ERR_BADHANDLE
  | NFS3ERR_NOT_SYNC
  | NFS3ERR_BAD_COOKIE
  | NFS3ERR_NOTSUPP
  | NFS3ERR_TOOSMALL
  | NFS3ERR_SERVERFAULT
  | NFS3ERR_BADTYPE
  | NFS3ERR_JUKEBOX
  deriving DecidableEq, Repr

/-- Little-endian 8-byte rendering of a `u64` (`u64::to_le_bytes`). -/
def u64ToLeBytes (x : Nat) : Bytes :=
  [x % 256, x / 256 % 256, x / 65536 % 256, x / 16777216 % 256,
   x / 4294967296 % 256, x / 1099511627776 % 256,
   x / 281474976710656 % 256, x / 72057594037927936 % 256]

/-- Value of an 8-byte little-endian slice (`u64::from_le_bytes`). -/
def leVal (l : Bytes) : Nat := l.foldr (fun x a => a * 256 + x) 0

/-- Mint the opaque file handle for `id` under the live generation number
(`NFSFileSystem::id_to_fh`): generation little-endian, then id little-endian. -/
def id_to_fh (gennum id : Nat) : Bytes :=
  u64ToLeBytes gennum ++ u64ToLeBytes id

/-- Parse an opaque file handle (`NFSFileSystem::fh_to_id`).  Wrong length is
`NFS3ERR_BADHANDLE`; a generation below the live one is `NFS3ERR_STALE`; a
generation above it is `NFS3ERR_BADHANDLE`. -/
def fh_to_id (gennum : Nat) (data : Bytes) : Except Nfsstat3 Nat :=
  if data.length ≠ 16 then Except.error Nfsstat3.NFS3ERR_BADHANDLE
  else
    let gen := leVal (data.take 8)
    let id := leVal (data.drop 8)
    if gen < gennum then Except.error Nfsstat3.NFS3ERR_STALE
    else if gennum < gen then Except.error Nfsstat3.NFS3ERR_BADHANDLE
    else Except.ok id

/-! ## Helper lemmas for the codec -/

theorem decU32_encU32_append (x : Nat) (rest : Bytes) (h : x < 4294967296) :
    decU32 (encU32 x ++ rest) = some (x, rest) := by
  simp only [encU32, List.cons_append, List.nil_append, decU32]
  congr 1
  congr 1
  omega

theorem decU64_encU64_append (x : Nat) (rest : Bytes) (h : x < 18446744073709551616) :
    decU64 (encU64 x ++ rest) = some (x, rest) := by
  simp only [encU64, List.cons_append, List.nil_append, decU64]
  congr 1
  congr 1
  omega

theorem length_encU32 (x : Nat) : (encU32 x).length = 4 := rfl

theorem length_encU64 (x : Nat) : (encU64 x).length = 8 := rfl

theorem leVal_u64ToLeBytes (x : Nat) (h : x < 18446744073709551616) :
    leVal (u64ToLeBytes x) = x := by
  simp only [u64ToLeBytes, leVal, List.foldr]
  omega

theorem length_u64ToLeBytes (x : Nat) : (u64ToLeBytes x).length = 8 := rfl

theorem readN_exact (v rest : Bytes) : readN v.length (v ++ rest) = some (v, rest) := by
  simp [readN, Nat.le_add_right, List.take_left, List.drop_left]

theorem length_encByteVec (v : Bytes) :
    (encByteVec v).length = 4 + v.length + xdrPad v.length := by
  simp only [encByteVec, List.length_append, length_encU32, List.length_replicate]

theorem decByteVec_encByteVec (v : Bytes) (h : v.length < 4294967296) :
    decByteVec (encByteVec v) = some (v, []) := by
  have h1 : decU32 (encU32 v.length ++ (v ++ List.replicate (xdrPad v.length) 0)) =
      some (v.length, v ++ List.replicate (xdrPad v.length) 0) :=
    decU32_encU32_append v.length _ h
  have h2 : readN v.length (v ++ List.replicate (xdrPad v.length) 0) =
      some (v, List.replicate (xdrPad v.length) 0) := readN_exact v _
  have h3 : readN (xdrPad v.length) (List.replicate (xdrPad v.length) 0) =
      some (List.replicate (xdrPad v.length) 0, []) := by
    have := readN_exact (List.replicate (xdrPad v.length) 0) []
    simpa using this
  simp only [decByteVec, encByteVec, List.append_assoc, h1, h2, h3,
    Option.bind_eq_bind, Option.some_bind]
  rfl

theorem decBool_encBool (b : Bool) : decBool (encBool b) = some (b, []) := by
  cases b <;> rfl

theorem decI32_encI32 (x : Int) (h0 : -2147483648 ≤ x) (h1 : x < 2147483648) :
    decI32 (encI32 x) = some (x, []) := by
  have hm0 : 0 ≤ x % 4294967296 := Int.emod_nonneg x (by norm_num)
  have hm1 : x % 4294967296 < 4294967296 := Int.emod_lt_of_pos x (by norm_num)
  have hlt : (x % 4294967296).toNat < 4294967296 := by omega
  have hdec := decU32_encU32_append (x % 4294967296).toNat [] hlt
  have key : (if (x % 4294967296).toNat < 2147483648 then
        ((x % 4294967296).toNat : Int)
      else ((x % 4294967296).toNat : Int) - 4294967296) = x := by
    split <;> omega
  simp only [decI32, encI32, List.append_nil] at hdec ⊢
  rw [hdec]
  simp only [Option.map_some', Option.some.injEq, Prod.mk.injEq]
  exact ⟨key, trivial⟩

theorem decI64_encI64 (x : Int)
    (h0 : -9223372036854775808 ≤ x) (h1 : x < 9223372036854775808) :
    decI64 (encI64 x) = some (x, []) := by
  have hm0 : 0 ≤ x % 18446744073709551616 := Int.emod_nonneg x (by norm_num)
  have hm1 : x % 18446744073709551616 < 18446744073709551616 :=
    Int.emod_lt_of_pos x (by norm_num)
  have hlt : (x % 18446744073709551616).toNat < 18446744073709551616 := by omega
  have hdec := decU64_encU64_append (x % 18446744073709551616).toNat [] hlt
  have key : (if (x % 18446744073709551616).toNat < 9223372036854775808 then
        ((x % 18446744073709551616).toNat : Int)
      else ((x % 18446744073709551616).toNat : Int) - 18446744073709551616) = x := by
    split <;> omega
  simp only [decI64, encI64, List.append_nil] at hdec ⊢
  rw [hdec]
  simp only [Option.map_some', Option.some.injEq, Prod.mk.injEq]
  exact ⟨key, trivial⟩

/-- C7.  XDR round-trips for the primitive codec impls of `src/xdr.rs`
(lines 42–132): for booleans, `u32`, `u64`, `i32`, `i64`, fixed 8-byte opaque
arrays and variable-length byte strings, `decode (encode x) = x`; every
encoding length is a multiple of 4; and a variable-length byte string of
length n encodes to exactly `4 + n + ((4 - n % 4) % 4)` bytes. -/
theorem C7_xdr_roundtrip :
    (∀ b : Bool, decBool (encBool b) = some (b, []) ∧ (encBool b).length % 4 = 0) ∧
    (∀ x : Nat, x < 4294967296 →
      decU32 (encU32 x) = some (x, []) ∧ (encU32 x).length % 4 = 0) ∧
    (∀ x : Nat, x < 18446744073709551616 →
      decU64 (encU64 x) = some (x, []) ∧ (encU64 x).length % 4 = 0) ∧
    (∀ x : Int, -2147483648 ≤ x → x < 2147483648 →
      decI32 (encI32 x) = some (x, []) ∧ (encI32 x).length % 4 = 0) ∧
    (∀ x : Int, -9223372036854775808 ≤ x → x < 9223372036854775808 →
      decI64 (encI64 x) = some (x, []) ∧ (encI64 x).length % 4 = 0) ∧
    (∀ v : Bytes, v.length = 8 →
      decFixed 8 (encFixed v) = some (v, []) ∧ (encFixed v).length % 4 = 0) ∧
    (∀ v : Bytes, v.length < 4294967295 →
      decByteVec (encByteVec v) = some (v, []) ∧
      (encByteVec v).length % 4 = 0 ∧
      (encByteVec v).length = 4 + v.length + (4 - v.length % 4) % 4) := by
  refine ⟨?_, ?_, ?_, ?_, ?_, ?_, ?_⟩
  · intro b
    exact ⟨decBool_encBool b, by cases b <;> rfl⟩
  · intro x hx
    refine ⟨?_, by rw [length_encU32]⟩
    have := decU32_encU32_append x [] hx
    simpa using this
  · intro x hx
    refine ⟨?_, by rw [length_encU64]⟩
    have := decU64_encU64_append x [] hx
    simpa using this
  · intro x h0 h1
    exact ⟨decI32_encI32 x h0 h1, by simp only [encI32, length_encU32]⟩
  · intro x h0 h1
    exact ⟨decI64_encI64 x h0 h1, by simp only [encI64, length_encU64]⟩
  · intro v hv
    refine ⟨?_, ?_⟩
    · have := readN_exact v []
      simp only [decFixed, encFixed, ← hv]
      simpa using this
    · simp [encFixed, hv]
  · intro v hv
    refine ⟨decByteVec_encByteVec v (by omega), ?_, ?_⟩
    · rw [length_encByteVec]
      simp only [xdrPad]
      omega
    · rw [length_encByteVec]
      simp only [xdrPad]

/-- Witness for C7 at concrete inputs. -/
theorem C7_xdr_roundtrip_witness :
    decBool (encBool true) = some (true, []) ∧
    decU32 (encU32 7) = some (7, []) ∧
    decU64 (encU64 4294967300) = some (4294967300, []) ∧
    decI32 (encI32 (-5)) = some (-5, []) ∧
    decI64 (encI64 (-6)) = some (-6, []) ∧
    decFixed 8 (encFixed [1, 2, 3, 4, 5, 6, 7, 8]) =
      some ([1, 2, 3, 4, 5, 6, 7, 8], []) ∧
    decByteVec (encByteVec [9, 9, 9]) = some ([9, 9, 9], []) ∧
    (encByteVec [9, 9, 9]).length = 4 + 3 + (4 - 3 % 4) % 4 :=
  ⟨(C7_xdr_roundtrip.1 true).1,
   (C7_xdr_roundtrip.2.1 7 (by norm_num)).1,
   (C7_xdr_roundtrip.2.2.1 4294967300 (by norm_num)).1,
   (C7_xdr_roundtrip.2.2.2.1 (-5) (by norm_num) (by norm_num)).1,
   (C7_xdr_roundtrip.2.2.2.2.1 (-6) (by norm_num) (by norm_num)).1,
   (C7_xdr_roundtrip.2.2.2.2.2.1 [1, 2, 3, 4, 5, 6, 7, 8] rfl).1,
   (C7_xdr_roundtrip.2.2.2.2.2.2 [9, 9, 9] (by norm_num)).1,
   (C7_xdr_roundtrip.2.2.2.2.2.2 [9, 9, 9] (by norm_num)).2.2⟩

/-- C8.  Within one process lifetime (a fixed live generation number), the
minted 16-byte handle round-trips: `fh_to_id (id_to_fh i) = Ok i`
(`src/vfs.rs` lines 247–268). -/
theorem C8_fh_roundtrip (gennum id : Nat)
    (hg : gennum < 18446744073709551616) (hi : id < 18446744073709551616) :
    fh_to_id gennum (id_to_fh gennum id) = Except.ok id := by
  have hlen : (id_to_fh gennum id).length = 16 := by
    simp [id_to_fh, length_u64ToLeBytes]
  have htake : (id_to_fh gennum id).take 8 = u64ToLeBytes gennum := by
    have h8 := List.take_left (u64ToLeBytes gennum) (u64ToLeBytes id)
    rw [length_u64ToLeBytes] at h8
    exact h8
  have hdrop : (id_to_fh gennum id).drop 8 = u64ToLeBytes id := by
    have h8 := List.drop_left (u64ToLeBytes gennum) (u64ToLeBytes id)
    rw [length_u64ToLeBytes] at h8
    exact h8
  simp only [fh_to_id, hlen, htake, hdrop, leVal_u64ToLeBytes gennum hg,
    leVal_u64ToLeBytes id hi]
  simp

/-- Witness for C8 at a concrete generation number and fileid. -/
theorem C8_fh_roundtrip_witness : fh_to_id 5 (id_to_fh 5 7) = Except.ok 7 :=
  C8_fh_roundtrip 5 7 (by norm_num) (by norm_num)

/-- C3 counterexample.  A 16-byte handle whose embedded generation number is
LARGER than the live one is rejected with `NFS3ERR_BADHANDLE`, not
`NFS3ERR_STALE` as the claim states (the `Ordering::Greater` arm of
`fh_to_id` returns `NFS3ERR_BADHANDLE`). -/
theorem C3_greater_generation_not_stale :
    fh_to_id 5 (id_to_fh 6 1) = Except.error Nfsstat3.NFS3ERR_BADHANDLE ∧
    (Except.error Nfsstat3.NFS3ERR_BADHANDLE : Except Nfsstat3 Nat) ≠
      Except.error Nfsstat3.NFS3ERR_STALE := by
  exact ⟨by decide, by decide⟩

/-- C3 (amended).  A handle whose payload length is not 16 yields
`NFS3ERR_BADHANDLE`; a 16-byte handle with generation BELOW the live one
yields `NFS3ERR_STALE`; one with generation ABOVE the live one yields
`NFS3ERR_BADHANDLE` (`src/vfs.rs` lines 256–268). -/
theorem C3_fh_to_id_amended (gennum : Nat) (data : Bytes) :
    (data.length ≠ 16 →
      fh_to_id gennum data = Except.error Nfsstat3.NFS3ERR_BADHANDLE) ∧
    (data.length = 16 → leVal (data.take 8) < gennum →
      fh_to_id gennum data = Except.error Nfsstat3.NFS3ERR_STALE) ∧
    (data.length = 16 → gennum < leVal (data.take 8) →
      fh_to_id gennum data = Except.error Nfsstat3.NFS3ERR_BADHANDLE) := by
  refine ⟨?_, ?_, ?_⟩
  · intro h
    simp [fh_to_id, h]
  · intro hlen hlt
    simp [fh_to_id, hlen, hlt]
  · intro hlen hgt
    simp only [fh_to_id, hlen]
    rw [if_neg (by simp), if_neg (by omega), if_pos hgt]

/-- Witness for the amended C3 at concrete handles. -/
theorem C3_fh_to_id_amended_witness :
    fh_to_id 5 (List.replicate 17 0) = Except.error Nfsstat3.NFS3ERR_BADHANDLE ∧
    fh_to_id 5 (id_to_fh 4 1) = Except.error Nfsstat3.NFS3ERR_STALE ∧
    fh_to_id 5 (id_to_fh 9 1) = Except.error Nfsstat3.NFS3ERR_BADHANDLE :=
  ⟨(C3_fh_to_id_amended 5 (List.replicate 17 0)).1 (by decide),
   (C3_fh_to_id_amended 5 (id_to_fh 4 1)).2.1 (by decide) (by decide),
   (C3_fh_to_id_amended 5 (id_to_fh 9 1)).2.2 (by decide) (by decide)⟩

/-! ## NFS attribute records and their XDR encodings, from `src/nfs.rs` -/

/-- Timestamp `nfstime3`: `(seconds, nseconds)`, each a `u32`. -/
structure Nfstime3 where
  seconds : Nat
  nseconds : Nat
  deriving DecidableEq, Repr

/-- Attributes `fattr3` (`src/nfs.rs`).  `ftype` holds the wire value of the
`ftype3` enum; `rdev1`/`rdev2` are the two `u32` members of `specdata3`. -/
structure Fattr3 where
  ftype : Nat
  mode : Nat
  nlink : Nat
  uid : Nat
  gid : Nat
  size : Nat
  used : Nat
  rdev1 : Nat
  rdev2 : Nat
  fsid : Nat
  fileid : Nat
  atime : Nfstime3
  mtime : Nfstime3
  ctime : Nfstime3
  deriving DecidableEq, Repr

/-- Encoding of `nfstime3` (`XDRStruct!(nfstime3, seconds, nseconds)`). -/
def encNfstime3 (t : Nfstime3) : Bytes := encU32 t.seconds ++ encU32 t.nseconds

/-- Encoding of `fattr3`: the thirteen members in declaration order. -/
def encFattr3 (a : Fattr3) : Bytes :=
  encU32 a.ftype ++ encU32 a.mode ++ encU32 a.nlink ++ encU32 a.uid ++
  encU32 a.gid ++ encU64 a.size ++ encU64 a.used ++ encU32 a.rdev1 ++
  encU32 a.rdev2 ++ encU64 a.fsid ++ encU64 a.fileid ++ encNfstime3 a.atime ++
  encNfstime3 a.mtime ++ encNfstime3 a.ctime

/-- Encoding of `post_op_attr`: a boolean discriminant then the attributes
when present (`XDRBoolUnion!(post_op_attr, attributes, fattr3)`). -/
def encPostOpAttr : Option Fattr3 → Bytes
  | none => encBool false
  | some a => encBool true ++ encFattr3 a

/-- Serialization of `make_success_reply(xid)` from `src/rpc.rs`: the xid, the
REPLY discriminant, MSG_ACCEPTED, the `AUTH_NULL` verifier with empty body,
and the SUCCESS accept status — 24 bytes. -/
def rpcSuccessBytes (xid : Nat) : Bytes :=
  encU32 xid ++ encU32 1 ++ encU32 0 ++ (encU32 0 ++ encByteVec []) ++ encU32 0

/-! ## Directory listing back-end and the READDIR / READDIRPLUS handlers

The back-end trait method `NFSFileSystem::readdir` has no implementation
under `src/` (concrete back-ends are out of scope), so it is modelled from
the spec.  The handlers themselves are translated from
`src/nfs_handlers.rs` (`nfsproc3_readdir`, `nfsproc3_readdirplus`). -/

/-- Directory entry as produced by the back-end `readdir` (`DirEntry` in
`src/vfs.rs`): fileid, name bytes and attributes. -/
structure DirEntry where
  fileid : Nat
  name : Bytes
  attr : Fattr3
  deriving DecidableEq, Repr

/-- Modelled from the spec: the back-end `NFSFileSystem::readdir` contract
(§4.7 and the `src/vfs.rs` doc comment) returns the entries of the fixed,
deterministic listing that come strictly after the entry whose fileid equals
`start_after` (positionally, as in the doc's example `[1,6,2,11,8,9]` with
`start_after = 6` returning `2,11,8,…`); `start_after = 0` means the start. -/
def backendEntriesAfter (dir : List DirEntry) (startAfter : Nat) : List DirEntry :=
  if startAfter = 0 then dir
  else (dir.dropWhile (fun e => e.fileid ≠ startAfter)).drop 1

/-- Modelled from the spec: the back-end `readdir(dir, start_after,
max_entries)` returns up to `max_entries` entries after `start_after` and an
end-of-directory flag. -/
def backendReaddir (dir : List DirEntry) (startAfter maxEntries : Nat) :
    List DirEntry × Bool :=
  let rest := backendEntriesAfter dir startAfter
  (rest.take maxEntries, decide (rest.length ≤ maxEntries))

/-- Default `NFSFileSystem::readdir_simple` from `src/vfs.rs` (lines
193–201): it calls `readdir(dirid, 0, count)` — the start position is
hard-wired to 0. -/
def readdir_simple (dir : List DirEntry) (count : Nat) : List DirEntry × Bool :=
  backendReaddir dir 0 count

/-- Checked version of the handlers' `as usize - 128` budget computation:
`none` models the debug-build panic on underflow. -/
def budgetSub (n : Nat) : Option Nat :=
  if n < 128 then none else some (n - 128)

/-- Release-build two's-complement wrap of the same `usize` subtraction
(for arguments below 128). -/
def wrappingSub128 (n : Nat) : Nat :=
  (n + 18446744073709551616 - 128) % 18446744073709551616

/-- Cookie verifier emitted with `READDIR*` replies: big-endian bytes of
`(mtime.seconds as u64) << 32 | (mtime.nseconds as u64)` when the directory
attributes were readable, else `cookieverf3::default()` (eight zero bytes). -/
def dirversionBytes : Except Nfsstat3 Fattr3 → Bytes
  | Except.ok a =>
      encU64 (Nat.lor (Nat.shiftLeft a.mtime.seconds 32) a.mtime.nseconds)
  | Except.error _ => List.replicate 8 0

/-- Directory `post_op_attr` written into the `READDIR*` reply prefixes. -/
def readdirDirAttrBytes : Except Nfsstat3 Fattr3 → Bytes
  | Except.ok a => encPostOpAttr (some a)
  | Except.error _ => encPostOpAttr none

/-- Serialization of one `entry3` (`XDRStruct!(entry3, fileid, name, cookie)`). -/
def entry3Bytes (fileid : Nat) (name : Bytes) (cookie : Nat) : Bytes :=
  encU64 fileid ++ encByteVec name ++ encU64 cookie

/-- Serialization of one `entryplus3`: fileid, name, cookie, per-entry
`post_op_attr` (always present) and `post_op_fh3` holding the minted handle. -/
def entryplus3Bytes (gennum : Nat) (e : DirEntry) : Bytes :=
  encU64 e.fileid ++ encByteVec e.name ++ encU64 e.fileid ++
  encPostOpAttr (some e.attr) ++ (encBool true ++ encByteVec (id_to_fh gennum e.fileid))

/-- Outcome of a `READDIR`/`READDIRPLUS` handler run: the fileids of the
committed entries, the full serialized reply, the eof flag written at its
end, and whether every back-end entry was committed. -/
structure ReaddirReply where
  entries : List Nat
  bytes : Bytes
  eof : Bool
  allWritten : Bool
  deriving DecidableEq, Repr

/-- Entry loop of `nfsproc3_readdir`: each entry is serialized into a scratch
buffer (a `true` marker then the `entry3` with `cookie = fileid`) and
committed only if `scratch.length + bytes_written < max_bytes_allowed`;
otherwise the loop stops with `all_entries_written = false`. -/
def readdirLoop (maxBytes : Nat) (written : Nat) :
    List DirEntry → List Nat × Bytes × Bool
  | [] => ([], [], true)
  | e :: rest =>
    let scratch := encBool true ++ entry3Bytes e.fileid e.name e.fileid
    if scratch.length + written < maxBytes then
      let r := readdirLoop maxBytes (written + scratch.length) rest
      (e.fileid :: r.1, scratch ++ r.2.1, r.2.2)
    else ([], [], false)

/-- Handler `nfsproc3_readdir` (`src/nfs_handlers.rs` lines 1044–1162), the
`Ok` path of a valid directory handle.  `max_bytes_allowed` is
`dircount as usize - 128` (`none` models the underflow panic for
`dircount < 128`); the back-end is queried through `readdir_simple` with
`estimated_max_results = dircount / 16` — the request's `cookie` argument is
never passed on.  After the loop a `false` list terminator and the eof flag
(the back-end's `end` only if every entry was committed) are appended. -/
def nfsproc3_readdir (xid : Nat) (dir : List DirEntry)
    (dirAttrRes : Except Nfsstat3 Fattr3) (cookie dircount : Nat) :
    Option ReaddirReply :=
  match budgetSub dircount with
  | none => none
  | some maxBytes =>
    let res := readdir_simple dir (dircount / 16)
    let pre := rpcSuccessBytes xid ++ encU32 0 ++ readdirDirAttrBytes dirAttrRes ++
      dirversionBytes dirAttrRes
    let r := readdirLoop maxBytes pre.length res.1
    let eof := if r.2.2 then res.2 else false
    some { entries := r.1,
           bytes := pre ++ r.2.1 ++ encBool false ++ encBool eof,
           eof := eof,
           allWritten := r.2.2 }

/-- Entry loop of `nfsproc3_readdirplus`: the scratch is a `true` marker then
the `entryplus3`; an entry is committed only if
`scratch.length + bytes_written < max_bytes_allowed` AND
`added_dircount + accumulated_dircount < dircount`, where `added_dircount`
is `8 + 4 + name.length + 8`. -/
def readdirplusLoop (gennum maxBytes dircountMax : Nat) (written accDircount : Nat) :
    List DirEntry → List Nat × Bytes × Bool
  | [] => ([], [], true)
  | e :: rest =>
    let scratch := encBool true ++ entryplus3Bytes gennum e
    let addedDircount := 8 + 4 + e.name.length + 8
    if scratch.length + written < maxBytes ∧ addedDircount + accDircount < dircountMax then
      let r := readdirplusLoop gennum maxBytes dircountMax (written + scratch.length)
        (accDircount + addedDircount) rest
      (e.fileid :: r.1, scratch ++ r.2.1, r.2.2)
    else ([], [], false)

/-- Handler `nfsproc3_readdirplus` (`src/nfs_handlers.rs` lines 852–1042),
the `Ok` path of a valid directory handle.  `max_bytes_allowed` is
`maxcount as usize - 128` (`none` models the underflow panic for
`maxcount < 128`); the back-end `readdir` is called with the request cookie
and `estimated_max_results = dircount / 16`. -/
def nfsproc3_readdirplus (xid gennum : Nat) (dir : List DirEntry)
    (dirAttrRes : Except Nfsstat3 Fattr3) (cookie dircount maxcount : Nat) :
    Option ReaddirReply :=
  match budgetSub maxcount with
  | none => none
  | some maxBytes =>
    let res := backendReaddir dir cookie (dircount / 16)
    let pre := rpcSuccessBytes xid ++ encU32 0 ++ readdirDirAttrBytes dirAttrRes ++
      dirversionBytes dirAttrRes
    let r := readdirplusLoop gennum maxBytes dircount pre.length 0 res.1
    let eof := if r.2.2 then res.2 else false
    some { entries := r.1,
           bytes := pre ++ r.2.1 ++ encBool false ++ encBool eof,
           eof := eof,
           allWritten := r.2.2 }

/-- Sample attribute record used as concrete input to the handlers. -/
def sampleAttr : Fattr3 :=
  { ftype := 2, mode := 511, nlink := 1, uid := 0, gid := 0, size := 0, used := 0,
    rdev1 := 0, rdev2 := 0, fsid := 0, fileid := 1,
    atime := ⟨0, 0⟩, mtime := ⟨1, 2⟩, ctime := ⟨3, 4⟩ }

/-- Sample four-entry directory with fileids 10, 20, 30, 40 in listing order. -/
def sampleDir4 : List DirEntry :=
  [⟨10, [97], sampleAttr⟩, ⟨20, [98], sampleAttr⟩,
   ⟨30, [99], sampleAttr⟩, ⟨40, [100], sampleAttr⟩]

/-! ## Length bookkeeping for the READDIRPLUS budget -/

theorem length_encNfstime3 (t : Nfstime3) : (encNfstime3 t).length = 8 := by
  simp [encNfstime3, length_encU32]

theorem length_encFattr3 (a : Fattr3) : (encFattr3 a).length = 84 := by
  simp [encFattr3, length_encU32, length_encU64, length_encNfstime3]

theorem length_rpcSuccessBytes (xid : Nat) : (rpcSuccessBytes xid).length = 24 := by
  simp [rpcSuccessBytes, length_encU32, length_encByteVec]
  rfl

theorem length_readdirDirAttrBytes (x : Except Nfsstat3 Fattr3) :
    (readdirDirAttrBytes x).length ≤ 88 := by
  cases x with
  | ok a =>
      simp [readdirDirAttrBytes, encPostOpAttr, encBool, length_encU32, length_encFattr3]
  | error e =>
      simp [readdirDirAttrBytes, encPostOpAttr, encBool, length_encU32]

theorem length_dirversionBytes (x : Except Nfsstat3 Fattr3) :
    (dirversionBytes x).length = 8 := by
  cases x with
  | ok a => simp [dirversionBytes, length_encU64]
  | error e => simp [dirversionBytes]

theorem readdirplusLoop_length (gennum mB dM : Nat) :
    ∀ (entries : List DirEntry) (w acc : Nat),
      w + (readdirplusLoop gennum mB dM w acc entries).2.1.length ≤ max w (mB - 1) := by
  intro entries
  induction entries with
  | nil =>
      intro w acc
      simp [readdirplusLoop]
  | cons e rest ih =>
      intro w acc
      simp only [readdirplusLoop]
      by_cases hc : (encBool true ++ entryplus3Bytes gennum e).length + w < mB ∧
          8 + 4 + e.name.length + 8 + acc < dM
      · rw [if_pos hc]
        have h2 := ih (w + (encBool true ++ entryplus3Bytes gennum e).length)
          (acc + (8 + 4 + e.name.length + 8))
        simp only [List.length_append] at hc h2 ⊢
        omega
      · rw [if_neg hc]
        simp

set_option maxRecDepth 100000 in
/-- C5 counterexample.  For `maxcount = 128` (no underflow:
`max_bytes_allowed = 0`) on a one-entry directory with readable attributes,
every entry is dropped yet the unconditional reply skeleton — 24-byte RPC
header, status, 88-byte directory `post_op_attr`, 8-byte cookie verifier,
list terminator and eof flag — is 132 bytes, exceeding `maxcount`. -/
theorem C5_maxcount128_counterexample :
    (nfsproc3_readdirplus 0 0 [⟨10, [97], sampleAttr⟩] (Except.ok sampleAttr)
        0 4096 128).map (fun r => (r.bytes.length, r.eof)) = some (132, false) ∧
    ¬ (132 ≤ 128) := by
  exact ⟨by decide, by decide⟩

/-- C5 (amended).  For every READDIRPLUS call with `maxcount ≥ 132`, the
encoded reply is at most `maxcount` bytes, and whenever an entry was dropped
for budget the eof flag in the reply is `false`.  (For `128 ≤ maxcount ≤ 131`
the 132-byte skeleton already exceeds the budget, and for `maxcount < 128`
the handler's `usize` subtraction underflows.) -/
theorem C5_readdirplus_budget_amended (xid gennum : Nat) (dir : List DirEntry)
    (dirAttrRes : Except Nfsstat3 Fattr3) (cookie dircount maxcount : Nat)
    (hmax : 132 ≤ maxcount) (r : ReaddirReply)
    (h : nfsproc3_readdirplus xid gennum dir dirAttrRes cookie dircount maxcount
      = some r) :
    r.bytes.length ≤ maxcount ∧ (r.allWritten = false → r.eof = false) := by
  have hb : ¬ maxcount < 128 := by omega
  simp only [nfsproc3_readdirplus, budgetSub, hb, if_false, Option.some.injEq] at h
  subst h
  constructor
  · have hloop := readdirplusLoop_length gennum (maxcount - 128) dircount
      (backendReaddir dir cookie (dircount / 16)).1
      (rpcSuccessBytes xid ++ encU32 0 ++ readdirDirAttrBytes dirAttrRes ++
        dirversionBytes dirAttrRes).length 0
    have hpre : (rpcSuccessBytes xid ++ encU32 0 ++ readdirDirAttrBytes dirAttrRes ++
        dirversionBytes dirAttrRes).length ≤ 124 := by
      have h1 := length_rpcSuccessBytes xid
      have h2 := length_readdirDirAttrBytes dirAttrRes
      have h3 := length_dirversionBytes dirAttrRes
      simp only [List.length_append, length_encU32] at *
      omega
    simp only [List.length_append, length_encU32] at hloop hpre ⊢
    have h4 : (encBool false).length = 4 := rfl
    have h5 : ∀ b, (encBool b).length = 4 := by intro b; cases b <;> rfl
    rw [h4, h5]
    omega
  · intro hall
    dsimp only at hall
    rw [hall]
    simp

set_option maxRecDepth 100000 in
/-- Witness for the amended C5: a call with `maxcount = 1000` on a one-entry
directory; the reply stays within budget. -/
theorem C5_readdirplus_budget_amended_witness :
    ((nfsproc3_readdirplus 0 0 [⟨10, [97], sampleAttr⟩] (Except.ok sampleAttr)
        0 4096 1000).getD ⟨[], [], false, false⟩).bytes.length ≤ 1000 :=
  (C5_readdirplus_budget_amended 0 0 [⟨10, [97], sampleAttr⟩] (Except.ok sampleAttr)
    0 4096 1000 (by norm_num) _ (by rfl)).1

set_option maxRecDepth 100000 in
/-- C1.  The claim is the intended behavior (the `src/vfs.rs` trait docs
describe `start_after` pagination and the handler even logs
`start at {args.cookie}`), but `nfsproc3_readdir` never forwards the cookie:
it calls `readdir_simple`, whose default implementation invokes
`readdir(dirid, 0, count)`.  A READDIR call on directory `[10,20,30,40]`
with `cookie = 20` therefore returns all four entries — including fileids
`10` and `20`, both `≤` the supplied cookie — with `eof = true`, and its
reply is identical to a `cookie = 0` call, so chained calls re-enumerate
entries already returned. -/
theorem C1_readdir_ignores_cookie :
    (nfsproc3_readdir 0 sampleDir4 (Except.ok sampleAttr) 20 4096).map
      (fun r => (r.entries, r.eof)) = some ([10, 20, 30, 40], true) ∧
    ((10 : Nat) ≤ 20 ∧ (20 : Nat) ≤ 20) ∧
    nfsproc3_readdir 0 sampleDir4 (Except.ok sampleAttr) 20 4096 =
      nfsproc3_readdir 0 sampleDir4 (Except.ok sampleAttr) 0 4096 := by
  exact ⟨by decide, by decide, by decide⟩

/-- C10.  Both directory handlers compute their byte budget with an unchecked
`usize` subtraction of 128 (`maxcount` for READDIRPLUS, `dircount` for
READDIR).  For arguments below 128 the subtraction underflows: the handlers
are not total there (debug builds panic, modelled as `none`), and the
release-build wrap yields a budget of `2^64 - 128 + n`, at least
`2^64 - 128`. -/
theorem C10_budget_underflow (n : Nat) (h : n < 128) :
    budgetSub n = none ∧
    wrappingSub128 n = 18446744073709551616 - 128 + n ∧
    18446744073709551488 ≤ wrappingSub128 n ∧
    (∀ (xid : Nat) (dir : List DirEntry) (dirAttrRes : Except Nfsstat3 Fattr3)
      (cookie : Nat), nfsproc3_readdir xid dir dirAttrRes cookie n = none) ∧
    (∀ (xid gennum : Nat) (dir : List DirEntry)
      (dirAttrRes : Except Nfsstat3 Fattr3) (cookie dircount : Nat),
      nfsproc3_readdirplus xid gennum dir dirAttrRes cookie dircount n = none) := by
  refine ⟨by simp [budgetSub, h], by simp only [wrappingSub128]; omega,
    by simp only [wrappingSub128]; omega, ?_, ?_⟩
  · intro xid dir dirAttrRes cookie
    simp [nfsproc3_readdir, budgetSub, h]
  · intro xid gennum dir dirAttrRes cookie dircount
    simp [nfsproc3_readdirplus, budgetSub, h]

/-- Witness for C10 at `dircount = maxcount = 0`. -/
theorem C10_budget_underflow_witness :
    budgetSub 0 = none ∧
    wrappingSub128 0 = 18446744073709551488 ∧
    nfsproc3_readdir 7 [] (Except.error Nfsstat3.NFS3ERR_PERM) 0 0 = none ∧
    nfsproc3_readdirplus 7 5 [] (Except.error Nfsstat3.NFS3ERR_PERM) 0 300 0 = none :=
  ⟨(C10_budget_underflow 0 (by norm_num)).1,
   (C10_budget_underflow 0 (by norm_num)).2.1,
   (C10_budget_underflow 0 (by norm_num)).2.2.2.1 7 [] (Except.error Nfsstat3.NFS3ERR_PERM) 0,
   (C10_budget_underflow 0 (by norm_num)).2.2.2.2 7 5 [] (Except.error Nfsstat3.NFS3ERR_PERM) 0 300⟩

/-! ## Trace-level models of the mutating handlers, from `src/nfs_handlers.rs`

Each handler is modelled as the sequence of observable events it performs:
back-end invocations (`Event.vfs`) and serialized reply components
(`Event.out`).  The back-end's responses are passed in as explicit values.
Reply components that the claims never inspect are abstracted to tokens
(`wccData`, `resokTail`), keeping the control flow — which branch replies
what, and which back-end calls happen — exactly as in the source. -/

/-- Back-end capability report (`VFSCapabilities` in `src/vfs.rs`). -/
inductive VFSCapabilities where
  | ReadOnly
  | ReadWrite
  deriving DecidableEq, Repr

/-- Back-end operations the handlers can invoke. -/
inductive BackendOp where
  | getattr (id : Nat)
  | setattr (id : Nat)
  | write (id : Nat)
  | create
  | createExclusive
  | mkdir
  | remove
  | rename
  | symlink
  | lookup
  deriving DecidableEq, Repr

/-- Whether a back-end operation mutates the file system. -/
def BackendOp.isMutating : BackendOp → Bool
  | BackendOp.getattr _ => false
  | BackendOp.lookup => false
  | _ => true

/-- Serialized reply components. -/
inductive RItem where
  | rpcSuccess
  | rpcGarbageArgs
  | status (s : Nfsstat3)
  | wccDefault
  | wccData
  | postOpAttrItem
  | accessItem (bits : Nat)
  | resokTail
  deriving DecidableEq, Repr

/-- An observable handler event: a back-end call or an output item. -/
inductive Event where
  | out (i : RItem)
  | vfs (c : BackendOp)
  deriving DecidableEq, Repr

/-- Back-end calls appearing in a trace, in order. -/
def vfsCalls (t : List Event) : List BackendOp :=
  t.filterMap (fun e => match e with | Event.vfs c => some c | Event.out _ => none)

/-- Mutating back-end calls appearing in a trace. -/
def mutatingCalls (t : List Event) : List BackendOp :=
  (vfsCalls t).filter BackendOp.isMutating

/-- RPC replies (each beginning with `make_success_reply` or
`garbage_args_reply_message`) appearing in a trace. -/
def replyCount (t : List Event) : Nat :=
  (t.filter (fun e => e = Event.out RItem.rpcSuccess ∨
    e = Event.out RItem.rpcGarbageArgs)).length

/-- Reply written by every mutating handler on a read-only back-end:
`make_success_reply`, `NFS3ERR_ROFS`, `wcc_data::default()`. -/
def rofsReply : List Event :=
  [Event.out RItem.rpcSuccess, Event.out (RItem.status Nfsstat3.NFS3ERR_ROFS),
   Event.out RItem.wccDefault]

/-- `WRITE3args` as decoded from the wire. -/
structure WriteArgs where
  offset : Nat
  count : Nat
  data : Bytes
  deriving DecidableEq, Repr

/-- Handler `nfsproc3_write` (lines 1232–1302): read-only check first, then
the `count == data.len()` sanity check (`GARBAGE_ARGS`), then handle
resolution, the pre-op `getattr`, the back-end `write`, and the reply. -/
def nfsproc3_write (cap : VFSCapabilities) (args : WriteArgs)
    (fhRes : Except Nfsstat3 Nat) (writeRes : Except Nfsstat3 Fattr3) :
    List Event :=
  if cap ≠ VFSCapabilities.ReadWrite then rofsReply
  else if args.data.length ≠ args.count then [Event.out RItem.rpcGarbageArgs]
  else match fhRes with
    | Except.error stat =>
        [Event.out RItem.rpcSuccess, Event.out (RItem.status stat),
         Event.out RItem.wccDefault]
    | Except.ok id =>
        Event.vfs (BackendOp.getattr id) :: Event.vfs (BackendOp.write id) ::
        (match writeRes with
         | Except.ok _ =>
             [Event.out RItem.rpcSuccess, Event.out (RItem.status Nfsstat3.NFS3_OK),
              Event.out RItem.resokTail]
         | Except.error stat =>
             [Event.out RItem.rpcSuccess, Event.out (RItem.status stat),
              Event.out RItem.wccDefault])

/-- Handler `nfsproc3_setattr` (lines 1547–1623).  The guard-mismatch branch
writes a complete `NFS3ERR_NOT_SYNC` reply but the source has no `return`
there: execution falls through to the back-end `setattr` call and a second
reply. -/
def nfsproc3_setattr (cap : VFSCapabilities) (fhRes : Except Nfsstat3 Nat)
    (getattrRes : Except Nfsstat3 Fattr3) (guard : Option Nfstime3)
    (setattrRes : Except Nfsstat3 Fattr3) : List Event :=
  if cap ≠ VFSCapabilities.ReadWrite then rofsReply
  else match fhRes with
    | Except.error stat =>
        [Event.out RItem.rpcSuccess, Event.out (RItem.status stat)]
    | Except.ok id =>
        Event.vfs (BackendOp.getattr id) ::
        match getattrRes with
        | Except.error stat =>
            [Event.out RItem.rpcSuccess, Event.out (RItem.status stat),
             Event.out RItem.wccDefault]
        | Except.ok attr =>
            (match guard with
             | none => []
             | some c =>
                 if c.seconds ≠ attr.ctime.seconds ∨ c.nseconds ≠ attr.ctime.nseconds then
                   [Event.out RItem.rpcSuccess,
                    Event.out (RItem.status Nfsstat3.NFS3ERR_NOT_SYNC),
                    Event.out RItem.wccDefault]
                 else []) ++
            Event.vfs (BackendOp.setattr id) ::
            match setattrRes with
            | Except.ok _ =>
                [Event.out RItem.rpcSuccess, Event.out (RItem.status Nfsstat3.NFS3_OK),
                 Event.out RItem.wccData]
            | Except.error stat =>
                [Event.out RItem.rpcSuccess, Event.out (RItem.status stat),
                 Event.out RItem.wccDefault]

/-- `createmode3` discriminant. -/
inductive Createmode3 where
  | UNCHECKED
  | GUARDED
  | EXCLUSIVE
  deriving DecidableEq, Repr

/-- Handler `nfsproc3_create` (lines 1354–1495): read-only check, handle
resolution, pre-op `getattr`, the GUARDED existence probe, then `create` or
`create_exclusive`, a post-op `getattr`, and the reply. -/
def nfsproc3_create (cap : VFSCapabilities) (fhRes : Except Nfsstat3 Nat)
    (getattrRes : Except Nfsstat3 Fattr3) (mode : Createmode3)
    (lookupFindsTarget : Bool) (createRes : Except Nfsstat3 Nat) : List Event :=
  if cap ≠ VFSCapabilities.ReadWrite then rofsReply
  else match fhRes with
    | Except.error stat =>
        [Event.out RItem.rpcSuccess, Event.out (RItem.status stat),
         Event.out RItem.wccDefault]
    | Except.ok dirid =>
        Event.vfs (BackendOp.getattr dirid) ::
        match getattrRes with
        | Except.error stat =>
            [Event.out RItem.rpcSuccess, Event.out (RItem.status stat),
             Event.out RItem.wccDefault]
        | Except.ok _ =>
            if mode = Createmode3.GUARDED ∧ lookupFindsTarget then
              [Event.vfs BackendOp.lookup, Event.vfs (BackendOp.getattr dirid),
               Event.out RItem.rpcSuccess,
               Event.out (RItem.status Nfsstat3.NFS3ERR_EXIST),
               Event.out RItem.wccData]
            else
              (if mode = Createmode3.GUARDED then [Event.vfs BackendOp.lookup] else []) ++
              (if mode = Createmode3.EXCLUSIVE then [Event.vfs BackendOp.createExclusive]
               else [Event.vfs BackendOp.create]) ++
              Event.vfs (BackendOp.getattr dirid) ::
              match createRes with
              | Except.ok _ =>
                  [Event.out RItem.rpcSuccess,
                   Event.out (RItem.status Nfsstat3.NFS3_OK), Event.out RItem.resokTail]
              | Except.error stat =>
                  [Event.out RItem.rpcSuccess, Event.out (RItem.status stat),
                   Event.out RItem.wccData]

/-- Handler `nfsproc3_mkdir` (lines 1929–2014). -/
def nfsproc3_mkdir (cap : VFSCapabilities) (fhRes : Except Nfsstat3 Nat)
    (getattrRes : Except Nfsstat3 Fattr3) (mkdirRes : Except Nfsstat3 Nat) :
    List Event :=
  if cap ≠ VFSCapabilities.ReadWrite then rofsReply
  else match fhRes with
    | Except.error stat =>
        [Event.out RItem.rpcSuccess, Event.out (RItem.status stat),
         Event.out RItem.wccDefault]
    | Except.ok dirid =>
        Event.vfs (BackendOp.getattr dirid) ::
        match getattrRes with
        | Except.error stat =>
            [Event.out RItem.rpcSuccess, Event.out (RItem.status stat),
             Event.out RItem.wccDefault]
        | Except.ok _ =>
            Event.vfs BackendOp.mkdir :: Event.vfs (BackendOp.getattr dirid) ::
            match mkdirRes with
            | Except.ok _ =>
                [Event.out RItem.rpcSuccess, Event.out (RItem.status Nfsstat3.NFS3_OK),
                 Event.out RItem.resokTail]
            | Except.error stat =>
                [Event.out RItem.rpcSuccess, Event.out (RItem.status stat),
                 Event.out RItem.wccData]

/-- Handler `nfsproc3_symlink` (lines 2055–2148); same shape as MKDIR with
the back-end `symlink` call. -/
def nfsproc3_symlink (cap : VFSCapabilities) (fhRes : Except Nfsstat3 Nat)
    (getattrRes : Except Nfsstat3 Fattr3) (symlinkRes : Except Nfsstat3 Nat) :
    List Event :=
  if cap ≠ VFSCapabilities.ReadWrite then rofsReply
  else match fhRes with
    | Except.error stat =>
        [Event.out RItem.rpcSuccess, Event.out (RItem.status stat),
         Event.out RItem.wccDefault]
    | Except.ok dirid =>
        Event.vfs (BackendOp.getattr dirid) ::
        match getattrRes with
        | Except.error stat =>
            [Event.out RItem.rpcSuccess, Event.out (RItem.status stat),
             Event.out RItem.wccDefault]
        | Except.ok _ =>
            Event.vfs BackendOp.symlink :: Event.vfs (BackendOp.getattr dirid) ::
            match symlinkRes with
            | Except.ok _ =>
                [Event.out RItem.rpcSuccess, Event.out (RItem.status Nfsstat3.NFS3_OK),
                 Event.out RItem.resokTail]
            | Except.error stat =>
                [Event.out RItem.rpcSuccess, Event.out (RItem.status stat),
                 Event.out RItem.wccData]

/-- Handler `nfsproc3_remove` (lines 1650–1731); RMDIR (proc 13) is routed to
this same handler by `handle_nfs`. -/
def nfsproc3_remove (cap : VFSCapabilities) (fhRes : Except Nfsstat3 Nat)
    (getattrRes : Except Nfsstat3 Fattr3) (removeRes : Except Nfsstat3 Unit) :
    List Event :=
  if cap ≠ VFSCapabilities.ReadWrite then rofsReply
  else match fhRes with
    | Except.error stat =>
        [Event.out RItem.rpcSuccess, Event.out (RItem.status stat),
         Event.out RItem.wccDefault]
    | Except.ok dirid =>
        Event.vfs (BackendOp.getattr dirid) ::
        match getattrRes with
        | Except.error stat =>
            [Event.out RItem.rpcSuccess, Event.out (RItem.status stat),
             Event.out RItem.wccDefault]
        | Except.ok _ =>
            Event.vfs BackendOp.remove :: Event.vfs (BackendOp.getattr dirid) ::
            match removeRes with
            | Except.ok _ =>
                [Event.out RItem.rpcSuccess, Event.out (RItem.status Nfsstat3.NFS3_OK),
                 Event.out RItem.wccData]
            | Except.error stat =>
                [Event.out RItem.rpcSuccess, Event.out (RItem.status stat),
                 Event.out RItem.wccData]

/-- Handler `nfsproc3_rename` (lines 1759–1892): both directory handles are
resolved, both pre-op attribute reads happen, then the back-end `rename` and
both post-op reads. -/
def nfsproc3_rename (cap : VFSCapabilities)
    (fromFhRes toFhRes : Except Nfsstat3 Nat)
    (fromGetattrRes toGetattrRes : Except Nfsstat3 Fattr3)
    (renameRes : Except Nfsstat3 Unit) : List Event :=
  if cap ≠ VFSCapabilities.ReadWrite then rofsReply
  else match fromFhRes with
    | Except.error stat =>
        [Event.out RItem.rpcSuccess, Event.out (RItem.status stat),
         Event.out RItem.wccDefault]
    | Except.ok fromDirid =>
        match toFhRes with
        | Except.error stat =>
            [Event.out RItem.rpcSuccess, Event.out (RItem.status stat),
             Event.out RItem.wccDefault]
        | Except.ok toDirid =>
            Event.vfs (BackendOp.getattr fromDirid) ::
            match fromGetattrRes with
            | Except.error stat =>
                [Event.out RItem.rpcSuccess, Event.out (RItem.status stat),
                 Event.out RItem.wccDefault]
            | Except.ok _ =>
                Event.vfs (BackendOp.getattr toDirid) ::
                match toGetattrRes with
                | Except.error stat =>
                    [Event.out RItem.rpcSuccess, Event.out (RItem.status stat),
                     Event.out RItem.wccDefault]
                | Except.ok _ =>
                    Event.vfs BackendOp.rename ::
                    Event.vfs (BackendOp.getattr fromDirid) ::
                    Event.vfs (BackendOp.getattr toDirid) ::
                    match renameRes with
                    | Except.ok _ =>
                        [Event.out RItem.rpcSuccess,
                         Event.out (RItem.status Nfsstat3.NFS3_OK),
                         Event.out RItem.wccData]
                    | Except.error stat =>
                        [Event.out RItem.rpcSuccess, Event.out (RItem.status stat),
                         Event.out RItem.wccData]

/-- `ACCESS3_READ` bit (`src/nfs_handlers.rs` line 515). -/
def ACCESS3_READ : Nat := 1

/-- `ACCESS3_LOOKUP` bit (`src/nfs_handlers.rs` line 516). -/
def ACCESS3_LOOKUP : Nat := 2

/-- Handler `nfsproc3_access` (lines 548–584): resolve the handle, read the
object attributes, and on a non-read-write back-end mask the echoed access
bits with `ACCESS3_READ | ACCESS3_LOOKUP`. -/
def nfsproc3_access (cap : VFSCapabilities) (fhRes : Except Nfsstat3 Nat)
    (access : Nat) : List Event :=
  match fhRes with
  | Except.error stat =>
      [Event.out RItem.rpcSuccess, Event.out (RItem.status stat),
       Event.out RItem.postOpAttrItem]
  | Except.ok id =>
      let maskedAccess :=
        if cap ≠ VFSCapabilities.ReadWrite then
          Nat.land access (Nat.lor ACCESS3_READ ACCESS3_LOOKUP)
        else access
      [Event.vfs (BackendOp.getattr id), Event.out RItem.rpcSuccess,
       Event.out (RItem.status Nfsstat3.NFS3_OK), Event.out RItem.postOpAttrItem,
       Event.out (RItem.accessItem maskedAccess)]

/-! ## RPC dispatch, from `src/rpcwire.rs`, `src/nfs_handlers.rs`,
`src/mount_handlers.rs` and `src/portmap_handlers.rs` -/

/-- The routing fields of a decoded RPC `call_body`. -/
structure CallBody where
  rpcvers : Nat
  prog : Nat
  vers : Nat
  proc : Nat
  deriving DecidableEq, Repr

/-- Classification of the engine's reply to a call.  `dispatched prog proc`
stands for the accepted reply written by the implemented procedure body;
none of those bodies ever writes a mismatch reply. -/
inductive RpcReply where
  | dispatched (prog proc : Nat)
  | progMismatch (low high : Nat)
  | progUnavail
  | procUnavail
  | rpcMismatch (low high : Nat)
  deriving DecidableEq, Repr

/-- Dispatch of `handle_nfs` (`src/nfs_handlers.rs` lines 116–166): a version
other than 3 gets `prog_mismatch_reply_message(xid, 3)`; procedures 11
(MKNOD), 15 (LINK), 21 (COMMIT) and anything above 21 get `PROC_UNAVAIL`. -/
def handle_nfs (vers proc : Nat) : RpcReply :=
  if vers ≠ 3 then RpcReply.progMismatch 3 3
  else if proc ∈ [0, 1, 2, 3, 4, 5, 6, 7, 8, 9, 10, 12, 13, 14, 16, 17, 18, 19, 20] then
    RpcReply.dispatched 100003 proc
  else RpcReply.procUnavail

/-- Dispatch of `handle_portmap` (`src/portmap_handlers.rs` lines 38–64):
a version other than 2 gets `prog_mismatch_reply_message(xid, 2)`; only
NULL (0) and GETPORT (3) are implemented. -/
def handle_portmap (vers proc : Nat) : RpcReply :=
  if vers ≠ 2 then RpcReply.progMismatch 2 2
  else if proc ∈ [0, 3] then RpcReply.dispatched 100000 proc
  else RpcReply.procUnavail

/-- Dispatch of `handle_mount` (`src/mount_handlers.rs` lines 37–59): the
source contains NO version check; NULL, MNT, UMNT, UMNTALL and EXPORT are
dispatched, DUMP (2) and unknown procedures get `PROC_UNAVAIL`. -/
def handle_mount (vers proc : Nat) : RpcReply :=
  if proc ∈ [0, 1, 3, 4, 5] then RpcReply.dispatched 100005 proc
  else RpcReply.procUnavail

/-- Dispatch of `handle_rpc` (`src/rpcwire.rs` lines 30–75) for a CALL body:
`rpcvers ≠ 2` is answered with `rpc_vers_mismatch` (a denied RPC_MISMATCH
with default mismatch info, low = high = 0); then the program number routes
to NFS (100003), portmap (100000) or mount (100005), and every other
program — including the silently ignored ACL (100227), id-map (100270) and
metadata (200024) programs — gets `PROG_UNAVAIL`. -/
def handle_rpc (c : CallBody) : RpcReply :=
  if c.rpcvers ≠ 2 then RpcReply.rpcMismatch 0 0
  else if c.prog = 100003 then handle_nfs c.vers c.proc
  else if c.prog = 100000 then handle_portmap c.vers c.proc
  else if c.prog = 100005 then handle_mount c.vers c.proc
  else RpcReply.progUnavail

/-- C2.  The claim matches the source's evident intent (every other error
branch of `nfsproc3_setattr` ends with `return Ok(())`), but the
guard-mismatch branch lacks the `return`: on a read-write back-end with a
valid handle, current ctime `(3,4)` and guard ctime `(9,9)`, the handler
writes the complete `NFS3ERR_NOT_SYNC` reply, then still invokes the
back-end `setattr` and writes a second complete reply — two replies for one
xid, and the object is mutated. -/
theorem C2_setattr_guard_falls_through :
    nfsproc3_setattr VFSCapabilities.ReadWrite (Except.ok 1) (Except.ok sampleAttr)
        (some ⟨9, 9⟩) (Except.ok sampleAttr) =
      [Event.vfs (BackendOp.getattr 1), Event.out RItem.rpcSuccess,
       Event.out (RItem.status Nfsstat3.NFS3ERR_NOT_SYNC), Event.out RItem.wccDefault,
       Event.vfs (BackendOp.setattr 1), Event.out RItem.rpcSuccess,
       Event.out (RItem.status Nfsstat3.NFS3_OK), Event.out RItem.wccData] ∧
    replyCount (nfsproc3_setattr VFSCapabilities.ReadWrite (Except.ok 1)
      (Except.ok sampleAttr) (some ⟨9, 9⟩) (Except.ok sampleAttr)) = 2 ∧
    BackendOp.setattr 1 ∈ vfsCalls (nfsproc3_setattr VFSCapabilities.ReadWrite
      (Except.ok 1) (Except.ok sampleAttr) (some ⟨9, 9⟩) (Except.ok sampleAttr)) := by
  exact ⟨by decide, by decide, by decide⟩

/-- C4.  On a read-only back-end every WRITE, CREATE, MKDIR, SYMLINK,
REMOVE, RMDIR (routed to the same `nfsproc3_remove`), RENAME and SETATTR
call replies `NFS3ERR_ROFS` immediately — the common `rofsReply`, which
contains no back-end call at all — and every ACCESS call with a resolvable
handle echoes the requested mask bitwise-ANDed with
`ACCESS3_READ | ACCESS3_LOOKUP = 3`. -/
theorem C4_readonly_gating :
    (∀ (args : WriteArgs) (fh : Except Nfsstat3 Nat) (w : Except Nfsstat3 Fattr3),
      nfsproc3_write VFSCapabilities.ReadOnly args fh w = rofsReply) ∧
    (∀ (fh : Except Nfsstat3 Nat) (g : Except Nfsstat3 Fattr3)
      (guard : Option Nfstime3) (s : Except Nfsstat3 Fattr3),
      nfsproc3_setattr VFSCapabilities.ReadOnly fh g guard s = rofsReply) ∧
    (∀ (fh : Except Nfsstat3 Nat) (g : Except Nfsstat3 Fattr3) (mode : Createmode3)
      (lk : Bool) (c : Except Nfsstat3 Nat),
      nfsproc3_create VFSCapabilities.ReadOnly fh g mode lk c = rofsReply) ∧
    (∀ (fh : Except Nfsstat3 Nat) (g : Except Nfsstat3 Fattr3) (m : Except Nfsstat3 Nat),
      nfsproc3_mkdir VFSCapabilities.ReadOnly fh g m = rofsReply) ∧
    (∀ (fh : Except Nfsstat3 Nat) (g : Except Nfsstat3 Fattr3) (s : Except Nfsstat3 Nat),
      nfsproc3_symlink VFSCapabilities.ReadOnly fh g s = rofsReply) ∧
    (∀ (fh : Except Nfsstat3 Nat) (g : Except Nfsstat3 Fattr3) (r : Except Nfsstat3 Unit),
      nfsproc3_remove VFSCapabilities.ReadOnly fh g r = rofsReply) ∧
    (∀ (ffh tfh : Except Nfsstat3 Nat) (fg tg : Except Nfsstat3 Fattr3)
      (r : Except Nfsstat3 Unit),
      nfsproc3_rename VFSCapabilities.ReadOnly ffh tfh fg tg r = rofsReply) ∧
    vfsCalls rofsReply = [] ∧
    mutatingCalls rofsReply = [] ∧
    (∀ (id access : Nat),
      nfsproc3_access VFSCapabilities.ReadOnly (Except.ok id) access =
        [Event.vfs (BackendOp.getattr id), Event.out RItem.rpcSuccess,
         Event.out (RItem.status Nfsstat3.NFS3_OK), Event.out RItem.postOpAttrItem,
         Event.out (RItem.accessItem (Nat.land access 3))]) := by
  refine ⟨?_, ?_, ?_, ?_, ?_, ?_, ?_, rfl, rfl, ?_⟩
  · intro args fhRes writeRes
    rfl
  · intro fhRes getattrRes guard setattrRes
    rfl
  · intro fhRes getattrRes mode lk createRes
    rfl
  · intro fhRes getattrRes mkdirRes
    rfl
  · intro fhRes getattrRes symlinkRes
    rfl
  · intro fhRes getattrRes removeRes
    rfl
  · intro ffh tfh fg tg renameRes
    rfl
  · intro id access
    rfl

/-- C9.  On a read-write back-end, a WRITE whose decoded `count` differs from
the length of the decoded data bytes is answered with `GARBAGE_ARGS` alone,
and no back-end call — in particular no `write` — is made. -/
theorem C9_write_count_mismatch (args : WriteArgs) (fhRes : Except Nfsstat3 Nat)
    (writeRes : Except Nfsstat3 Fattr3) (h : args.data.length ≠ args.count) :
    nfsproc3_write VFSCapabilities.ReadWrite args fhRes writeRes =
      [Event.out RItem.rpcGarbageArgs] ∧
    vfsCalls (nfsproc3_write VFSCapabilities.ReadWrite args fhRes writeRes) = [] := by
  have he : nfsproc3_write VFSCapabilities.ReadWrite args fhRes writeRes =
      [Event.out RItem.rpcGarbageArgs] := by
    simp [nfsproc3_write, h]
  exact ⟨he, by rw [he]; rfl⟩

/-- Witness for C9: `count = 5` with 2 data bytes. -/
theorem C9_write_count_mismatch_witness :
    nfsproc3_write VFSCapabilities.ReadWrite ⟨0, 5, [1, 2]⟩ (Except.ok 1)
        (Except.ok sampleAttr) = [Event.out RItem.rpcGarbageArgs] :=
  (C9_write_count_mismatch ⟨0, 5, [1, 2]⟩ (Except.ok 1) (Except.ok sampleAttr)
    (by decide)).1

/-- C6 counterexample.  `handle_mount` performs no version check: a mount
CALL with `rpcvers = 2`, `vers = 99`, `proc = 0` (NULL) is dispatched and
answered with the procedure's accepted reply, not with a PROG_MISMATCH. -/
theorem C6_mount_no_version_check :
    handle_rpc ⟨2, 100005, 99, 0⟩ = RpcReply.dispatched 100005 0 ∧
    RpcReply.dispatched 100005 0 ≠ RpcReply.progMismatch 3 3 := by
  exact ⟨by decide, by decide⟩

/-- C6 (amended).  `rpcvers ≠ 2` is answered with a denied RPC_MISMATCH
reply; an NFS call with version ≠ 3 and a portmap call with version ≠ 2 get
accepted PROG_MISMATCH replies carrying low = high = the supported version;
but the MOUNT program performs no version check — it dispatches identically
for every version field. -/
theorem C6_version_mismatch_amended (c : CallBody) :
    (c.rpcvers ≠ 2 → handle_rpc c = RpcReply.rpcMismatch 0 0) ∧
    (c.rpcvers = 2 → c.prog = 100003 → c.vers ≠ 3 →
      handle_rpc c = RpcReply.progMismatch 3 3) ∧
    (c.rpcvers = 2 → c.prog = 100000 → c.vers ≠ 2 →
      handle_rpc c = RpcReply.progMismatch 2 2) ∧
    (c.rpcvers = 2 → c.prog = 100005 →
      handle_rpc c = handle_mount c.vers c.proc ∧
      handle_mount c.vers c.proc = handle_mount 3 c.proc) := by
  refine ⟨?_, ?_, ?_, ?_⟩
  · intro h
    simp [handle_rpc, h]
  · intro h1 h2 h3
    simp [handle_rpc, handle_nfs, h1, h2, h3]
  · intro h1 h2 h3
    simp [handle_rpc, handle_portmap, h1, h2, h3]
  · intro h1 h2
    refine ⟨?_, rfl⟩
    simp [handle_rpc, h1, h2]

/-- Witness for the amended C6 at concrete calls. -/
theorem C6_version_mismatch_amended_witness :
    handle_rpc ⟨3, 100003, 3, 0⟩ = RpcReply.rpcMismatch 0 0 ∧
    handle_rpc ⟨2, 100003, 4, 0⟩ = RpcReply.progMismatch 3 3 ∧
    handle_rpc ⟨2, 100000, 3, 0⟩ = RpcReply.progMismatch 2 2 ∧
    handle_rpc ⟨2, 100005, 8, 2⟩ = handle_mount 8 2 :=
  ⟨(C6_version_mismatch_amended ⟨3, 100003, 3, 0⟩).1 (by decide),
   (C6_version_mismatch_amended ⟨2, 100003, 4, 0⟩).2.1 rfl rfl (by decide),
   (C6_version_mismatch_amended ⟨2, 100000, 3, 0⟩).2.2.1 rfl rfl (by decide),
   ((C6_version_mismatch_amended ⟨2, 100005, 8, 2⟩).2.2.2 rfl rfl).1⟩

end NFSServe
